import Mathlib

/-!
A verification development for the core data model of `motop.py`, a
terminal monitoring dashboard: human-scaled rate-value rendering
(`Value.__str__`), per-server snapshot counters
(`Server.__getFlushCountChange` / `__getOperationCountChange`), ranked
tables (`ListPrinter.reset`, `printLines`, `getLine`), classification of
in-progress operations (`Server.currentOperations`), and the main loop's
per-tick operation listing.  Each definition is a shallow embedding of the
corresponding Python function; machine-level effects (terminal I/O, the
network connection) are out of scope and appear only as explicit inputs.
-/

namespace Motop

/-- Round-half-to-even division of `n` by `d`: the exact-rational reading of
Python 3's `round (n / d)` as used in `Value.__str__` (true division
followed by banker's rounding; the float inexactness of very large
quotients is idealized away). -/
def roundDiv (n d : Nat) : Nat :=
  let q := n / d
  let r := n % d
  if 2 * r < d then q
  else if d < 2 * r then q + 1
  else if q % 2 = 0 then q else q + 1

/-- `Value.__str__`: scaled rendering with `K`/`M`/`G`/`T` suffixes.  Each
threshold test is strict (`self > 10 ** k`), checked from `T` down to `K`;
a value at or below `10 ^ 3` is rendered as a plain decimal integer. -/
def Value.str (n : Nat) : String :=
  if 10 ^ 12 < n then toString (roundDiv n (10 ^ 12)) ++ "T"
  else if 10 ^ 9 < n then toString (roundDiv n (10 ^ 9)) ++ "G"
  else if 10 ^ 6 < n then toString (roundDiv n (10 ^ 6)) ++ "M"
  else if 10 ^ 3 < n then toString (roundDiv n (10 ^ 3)) ++ "K"
  else toString n

/-- The state of one monitored server (`Server.__init__` fields minus the
live connection object): display name, address, and the two cumulative
snapshot counters used for delta computation. -/
structure Server where
  name : String
  address : String
  operationCount : Int
  flushCount : Int
deriving DecidableEq

/-- `Server.__init__`: asserts `len (name) < 14` before any further state
(including the connection) is set up; both snapshot counters start at 0.
The failing assertion is modeled as an `Except.error`. -/
def Server.init (name address : String) : Except String Server :=
  if name.length < 14 then
    Except.ok { name := name, address := address, operationCount := 0, flushCount := 0 }
  else
    Except.error "AssertionError"

/-- A sample constructed server, used in concrete witnesses. -/
def srv1 : Server :=
  { name := "srv1", address := "h:1", operationCount := 0, flushCount := 0 }

/-- A second sample constructed server, used in concrete witnesses. -/
def srv2 : Server :=
  { name := "srv2", address := "h:2", operationCount := 0, flushCount := 0 }

/-- `Server.__getFlushCountChange`: stores the new cumulative flush count
and returns new minus old. -/
def Server.getFlushCountChange (s : Server) (flushCount : Int) : Int × Server :=
  (flushCount - s.flushCount, { s with flushCount := flushCount })

/-- `Server.__getOperationCountChange`: sums the per-kind opcounter values,
stores the sum, and returns new minus old. -/
def Server.getOperationCountChange (s : Server) (operationCounts : List (String × Int)) :
    Int × Server :=
  let newCount := (operationCounts.map Prod.snd).sum
  (newCount - s.operationCount, { s with operationCount := newCount })

/-- Iterated flush-count deltas: the sequence of values returned by
`Server.__getFlushCountChange` over successive ticks, threading the
mutated server state. -/
def Server.runFlushDeltas (s : Server) : List Int → List Int
  | [] => []
  | v :: vs =>
    let p := Server.getFlushCountChange s v
    p.1 :: Server.runFlushDeltas p.2 vs

/-- The displayable operation records (`Operation` and its subclass
`Query`).  A query's body is modeled by its JSON-serialized text. -/
inductive Operation where
  | operation (server : Server) (opid : Int)
  | query (server : Server) (opid : Int) (ns : String) (body : String)
      (duration : Option Int)
deriving DecidableEq

/-- Python `str` of an optional integer (`str (self.__duration)`). -/
def pyStrOptInt : Option Int → String
  | none => "None"
  | some d => toString d

/-- `Operation.sortOrder` returns `-1 * opid`; the `Query` override returns
`self.__duration if self.__duration else 0` (`None` and `0` are both
falsy, any other integer is truthy). -/
def Operation.sortOrder : Operation → Int
  | .operation _ opid => -1 * opid
  | .query _ _ _ _ duration =>
    match duration with
    | some d => if d ≠ 0 then d else 0
    | none => 0

/-- `Operation.line` renders `[str (server), str (opid)]`; the `Query`
override appends the namespace, `str` of the duration, and the query body
truncated to 80 characters. -/
def Operation.line : Operation → List String
  | .operation server opid => [server.name, toString opid]
  | .query server opid ns body duration =>
    [server.name, toString opid, ns, pyStrOptInt duration, body.take 80]

/-- One document of `current_op () ['inprog']` as read by
`Server.currentOperations`: kind, operation id, namespace, query body, and
the optional `secs_running` field.  The source reads `ns` and `query` only
on the `"query"` branch and assumes them present there. -/
structure InProgDoc where
  op : String
  opid : Int
  ns : String
  query : String
  secs_running : Option Int
deriving DecidableEq

/-- The per-document branch of `Server.currentOperations`: a `"query"`
document becomes a `Query` (with its `secs_running` when present, and an
absent duration otherwise); any other kind becomes a plain `Operation`. -/
def classifyOp (s : Server) (doc : InProgDoc) : Operation :=
  if doc.op = "query" then
    match doc.secs_running with
    | some sr => Operation.query s doc.opid doc.ns doc.query (some sr)
    | none => Operation.query s doc.opid doc.ns doc.query none
  else
    Operation.operation s doc.opid

/-- `Server.currentOperations`: the generator yields one record per
in-progress document, classified by `classifyOp`. -/
def Server.currentOperations (s : Server) (inprog : List InProgDoc) : List Operation :=
  inprog.map (classifyOp s)

/-- The ranked table (`ListPrinter`): fixed headers, mutable per-column
widths, ordering direction, optional row cap, and the current generation
of records. -/
structure ListPrinter (α : Type) where
  columnHeaders : List String
  columnWidths : List Nat
  descendingOrder : Bool
  maxLine : Option Nat
  printables : List α

/-- `ListPrinter.__init__`: each column width starts at its header's length
plus 2; the generation starts empty. -/
def ListPrinter.init {α : Type} (columnHeaders : List String) (descendingOrder : Bool)
    (maxLine : Option Nat) : ListPrinter α :=
  { columnHeaders := columnHeaders
    columnWidths := columnHeaders.map (fun h => h.length + 2)
    descendingOrder := descendingOrder
    maxLine := maxLine
    printables := [] }

/-- The comparison used by Python's stable `sorted (key = ..., reverse =
...)`: keys compared ascending, or descending when `reverse` is set. -/
def pyKeyLe {α κ : Type} [LinearOrder κ] (key : α → κ) (desc : Bool) (a b : α) : Bool :=
  if desc then key b ≤ key a else key a ≤ key b

/-- Python's `sorted (l, key = key, reverse = desc)`: a stable sort by the
key in the requested direction. -/
def pysorted {α κ : Type} [LinearOrder κ] (key : α → κ) (desc : Bool) (l : List α) : List α :=
  l.mergeSort (pyKeyLe key desc)

/-- `ListPrinter.reset`: sorts the submitted records by their sort key in
the table's direction, then truncates with `[:maxLine]` — but only when
`maxLine` is truthy, so both `None` and `0` leave the list untruncated.
The trailing loop asserts each element is a `Printable` instance (true of
every record type here by construction); it does not inspect arities. -/
def ListPrinter.reset {α κ : Type} [LinearOrder κ] (lp : ListPrinter α) (sortOrder : α → κ)
    (printables : List α) : ListPrinter α :=
  let s := pysorted sortOrder lp.descendingOrder printables
  { lp with printables :=
      match lp.maxLine with
      | some m => if m = 0 then s else s.take m
      | none => s }

/-- The width-update pass of one printed row in `ListPrinter.printLines`:
for each cell in range, a cell of length `> width - 2` grows its column's
width to the cell's length plus 2.  Widths beyond the row's cell count are
untouched; a cell beyond the width list would raise `IndexError` in the
source after the in-range updates have already been applied. -/
def updateWidths : List Nat → List String → List Nat
  | w :: ws, cell :: cells =>
    (if w < cell.length + 2 then cell.length + 2 else w) :: updateWidths ws cells
  | ws, [] => ws
  | [], _ :: _ => []

/-- The state effect of `ListPrinter.printLines` on the column widths: one
`updateWidths` pass per record of the current generation, in order. -/
def ListPrinter.printLines {α : Type} (lp : ListPrinter α) (line : α → List String) :
    ListPrinter α :=
  { lp with columnWidths := lp.printables.foldl (fun ws p => updateWidths ws (line p)) lp.columnWidths }

/-- The inner comparison loop of `ListPrinter.getLine`: walks the supplied
cells left to right against the record's rendered cells.  `some false`
means a mismatch was found, `some true` means every supplied position
agreed, `none` means the scan ran past the record's cells (an `IndexError`
in the source). -/
def scanMatch : List String → List String → Option Bool
  | _, [] => some true
  | [], _ :: _ => none
  | p :: ps, l :: ls => if p ≠ l then some false else scanMatch ps ls

/-- The record scan of `ListPrinter.getLine`: first record whose rendered
cells agree with the supplied cells at every supplied position; `some
none` is the implicit `return None` when no record matches, outer `none`
is a propagated `IndexError`. -/
def getLineScan {α : Type} (line : α → List String) : List α → List String → Option (Option α)
  | [], _ => some none
  | p :: ps, l =>
    match scanMatch (line p) l with
    | none => none
    | some true => some (some p)
    | some false => getLineScan line ps l

/-- `ListPrinter.getLine`: linear scan of the current generation. -/
def ListPrinter.getLine {α : Type} (lp : ListPrinter α) (line : α → List String)
    (l : List String) : Option (Option α) :=
  getLineScan line lp.printables l

/-- `Server.listPrinter`, the servers table (ascending, no row cap). -/
def Server.listPrinter : ListPrinter Server :=
  ListPrinter.init ["Server", "QPS", "Clients", "Queue", "Flushes", "Connections", "Memory"]
    false none

/-- `Query.listPrinter`, the operations table (descending, capped at 30). -/
def Query.listPrinter : ListPrinter Operation :=
  ListPrinter.init ["Server", "OpId", "Namespace", "Sec", "Query"] true (some 30)

/-- The main loop's per-tick operation listing
`[operation for server in servers for operation in server.currentOperations ()]`:
servers are polled sequentially and their records concatenated; an
exception from any single server's remote call propagates and aborts the
whole comprehension, discarding every server's contribution.  Each
server's outcome is the `Except` value of its remote call. -/
def collectOperations {ε : Type} (results : List (Except ε (List Operation))) :
    Except ε (List Operation) :=
  match results with
  | [] => Except.ok []
  | Except.error e :: _ => Except.error e
  | Except.ok ops :: rest =>
    match collectOperations rest with
    | Except.error e => Except.error e
    | Except.ok tail => Except.ok (ops ++ tail)

/-! ### General lemmas about the embedded operations -/

theorem pysorted_pairwise {α κ : Type} [LinearOrder κ] (key : α → κ) (desc : Bool)
    (l : List α) :
    List.Pairwise (fun a b => pyKeyLe key desc a b = true) (pysorted key desc l) := by
  apply List.sorted_mergeSort
  · intro a b c hab hbc
    cases desc <;> simp only [pyKeyLe, if_true, if_false, Bool.false_eq_true,
      decide_eq_true_eq] at hab hbc ⊢
    · exact le_trans hab hbc
    · exact le_trans hbc hab
  · intro a b
    cases desc <;> simp [pyKeyLe, le_total]

theorem pysorted_perm {α κ : Type} [LinearOrder κ] (key : α → κ) (desc : Bool) (l : List α) :
    (pysorted key desc l).Perm l :=
  List.mergeSort_perm l _

theorem pysorted_length {α κ : Type} [LinearOrder κ] (key : α → κ) (desc : Bool) (l : List α) :
    (pysorted key desc l).length = l.length :=
  (pysorted_perm key desc l).length_eq

theorem runFlushDeltas_eq (vs : List Int) : ∀ s : Server,
    Server.runFlushDeltas s vs = vs.zipWith (fun cur prev => cur - prev) (s.flushCount :: vs) := by
  induction vs with
  | nil => intro s; rfl
  | cons v vs ih =>
    intro s
    simp only [Server.runFlushDeltas, Server.getFlushCountChange, List.zipWith]
    rw [ih]

theorem runFlushDeltas_nonneg (vs : List Int) : ∀ s : Server,
    List.Chain' (· ≤ ·) (s.flushCount :: vs) → ∀ d ∈ Server.runFlushDeltas s vs, 0 ≤ d := by
  induction vs with
  | nil =>
    intro s _ d hd
    simp [Server.runFlushDeltas] at hd
  | cons v vs ih =>
    intro s hc d hd
    rw [List.chain'_cons] at hc
    simp only [Server.runFlushDeltas, Server.getFlushCountChange, List.mem_cons] at hd
    rcases hd with h | h
    · have := hc.1
      omega
    · exact ih { s with flushCount := v } hc.2 d h

theorem scanMatch_eq_isPrefixOf (l : List String) : ∀ pl : List String,
    l.length ≤ pl.length → scanMatch pl l = some (l.isPrefixOf pl) := by
  induction l with
  | nil =>
    intro pl _
    cases pl <;> simp [scanMatch, List.isPrefixOf]
  | cons x xs ih =>
    intro pl h
    cases pl with
    | nil => simp at h
    | cons p ps =>
      simp only [List.length_cons, Nat.add_le_add_iff_right] at h
      simp only [scanMatch, List.isPrefixOf]
      by_cases hpx : p = x
      · rw [if_neg (by simp [hpx]), ih ps h, hpx]
        simp
      · rw [if_pos hpx]
        have : (x == p) = false := by
          simp [Ne.symm hpx]
        simp [this]

theorem getLineScan_eq {α : Type} (line : α → List String) (l : List String) :
    ∀ ps : List α, (∀ p ∈ ps, l.length ≤ (line p).length) →
      getLineScan line ps l = some (ps.find? (fun p => l.isPrefixOf (line p))) := by
  intro ps
  induction ps with
  | nil => intro _; simp [getLineScan]
  | cons p ps ih =>
    intro h
    simp only [getLineScan]
    rw [scanMatch_eq_isPrefixOf l (line p) (h p (List.mem_cons_self p ps))]
    by_cases hm : l.isPrefixOf (line p) = true
    · rw [hm, List.find?_cons_of_pos ps hm]
    · rw [Bool.eq_false_iff.mpr hm, List.find?_cons_of_neg ps hm]
      exact ih (fun q hq => h q (List.mem_cons_of_mem p hq))

theorem updateWidths_getD_le : ∀ (ws : List Nat) (cells : List String) (i : Nat),
    ws.getD i 0 ≤ (updateWidths ws cells).getD i 0
  | [], [], _ => by simp [updateWidths]
  | [], _ :: _, _ => by simp [updateWidths]
  | _ :: _, [], _ => by simp [updateWidths]
  | w :: ws, c :: cs, 0 => by
    simp only [updateWidths, List.getD_cons_zero]
    split <;> omega
  | w :: ws, c :: cs, i + 1 => by
    simp only [updateWidths, List.getD_cons_succ]
    exact updateWidths_getD_le ws cs i

theorem foldl_updateWidths_getD_le {α : Type} (line : α → List String) :
    ∀ (ps : List α) (ws : List Nat) (i : Nat),
      ws.getD i 0 ≤ (ps.foldl (fun ws p => updateWidths ws (line p)) ws).getD i 0
  | [], _, _ => le_refl _
  | p :: ps, ws, i =>
    le_trans (updateWidths_getD_le ws (line p) i)
      (foldl_updateWidths_getD_le line ps (updateWidths ws (line p)) i)

theorem updateWidths_grow : ∀ (ws : List Nat) (cells : List String) (j : Nat),
    j < ws.length → ws.getD j 0 < (cells.getD j "").length →
    (updateWidths ws cells).getD j 0 = (cells.getD j "").length + 2
  | [], _, j => by simp
  | _ :: _, [], j => by
    intro _ hlt
    simp at hlt
  | w :: ws, c :: cs, 0 => by
    intro _ hlt
    simp only [List.getD_cons_zero] at hlt ⊢
    simp only [updateWidths, List.getD_cons_zero]
    rw [if_pos (by omega)]
  | w :: ws, c :: cs, j + 1 => by
    intro hj hlt
    simp only [List.length_cons, Nat.add_lt_add_iff_right] at hj
    simp only [List.getD_cons_succ] at hlt ⊢
    simp only [updateWidths, List.getD_cons_succ]
    exact updateWidths_grow ws cs j hj hlt

/-! ### Claim theorems -/

/-- C4 counterexample: the claim's example `999999 -> "1M"` is false.
`999999` does not exceed `10 ^ 6`, so the code divides by `10 ^ 3` and
renders `"1000K"`. -/
theorem rate_value_999999 : Value.str 999999 = "1000K" ∧ Value.str 999999 ≠ "1M" := by
  constructor <;> decide

/-- C4 (amended): for every non-negative integer, the rendering divides by
the largest of `10^3`/`10^6`/`10^9`/`10^12` that the magnitude strictly
exceeds, rounds to the nearest integer (ties to even), and appends
`K`/`M`/`G`/`T`; a value not exceeding `10^3` renders as a plain integer.
In particular `999 -> "999"`, `1500 -> "2K"`, `999999 -> "1000K"` (not
`"1M"`), and `1234567890 -> "1G"`. -/
theorem rate_value_rendering (n : Nat) :
    (n ≤ 10 ^ 3 → Value.str n = toString n) ∧
    (10 ^ 3 < n → n ≤ 10 ^ 6 → Value.str n = toString (roundDiv n (10 ^ 3)) ++ "K") ∧
    (10 ^ 6 < n → n ≤ 10 ^ 9 → Value.str n = toString (roundDiv n (10 ^ 6)) ++ "M") ∧
    (10 ^ 9 < n → n ≤ 10 ^ 12 → Value.str n = toString (roundDiv n (10 ^ 9)) ++ "G") ∧
    (10 ^ 12 < n → Value.str n = toString (roundDiv n (10 ^ 12)) ++ "T") ∧
    Value.str 999 = "999" ∧ Value.str 1500 = "2K" ∧ Value.str 999999 = "1000K" ∧
    Value.str 1234567890 = "1G" := by
  have e12 : (10 : Nat) ^ 12 = 1000000000000 := by norm_num
  have e9 : (10 : Nat) ^ 9 = 1000000000 := by norm_num
  have e6 : (10 : Nat) ^ 6 = 1000000 := by norm_num
  have e3 : (10 : Nat) ^ 3 = 1000 := by norm_num
  refine ⟨?_, ?_, ?_, ?_, ?_, by decide, by decide, by decide, by decide⟩ <;>
    simp only [e12, e9, e6, e3] <;> intro h1 <;> try intro h2
  all_goals simp only [Value.str, e12, e9, e6, e3]
  all_goals split_ifs <;> first | rfl | (exfalso; omega)

/-- C4 witness: `2000000` exceeds `10^6` but not `10^9`, and renders as
`"2M"`. -/
theorem rate_value_rendering_witness : Value.str 2000000 = "2M" := by
  have h := (rate_value_rendering 2000000).2.2.1 (by norm_num) (by norm_num)
  exact h.trans (by decide)

/-- C9: constructing a `Server` fails its assertion for every name of
length 14 or more, before any connection state exists; every successfully
constructed server keeps its name, which has at most 13 characters. -/
theorem server_name_length_guard (name address : String) :
    (14 ≤ name.length → Server.init name address = Except.error "AssertionError") ∧
    (∀ s : Server, Server.init name address = Except.ok s →
      s.name = name ∧ s.name.length ≤ 13 ∧ s.address = address ∧
      s.operationCount = 0 ∧ s.flushCount = 0) := by
  constructor
  · intro h
    simp only [Server.init]
    rw [if_neg (by omega)]
  · intro s hs
    simp only [Server.init] at hs
    split_ifs at hs with h
    · simp only [Except.ok.injEq] at hs
      subst hs
      refine ⟨rfl, ?_, rfl, rfl, rfl⟩
      show name.length ≤ 13
      omega

/-- C9 witness: a 14-character name is rejected; the 4-character name
`"srv1"` is accepted and satisfies the length bound. -/
theorem server_name_length_guard_witness :
    Server.init "aVeryLongName!" "h:1" = Except.error "AssertionError" ∧
    ("srv1" : String).length ≤ 13 := by
  constructor
  · exact (server_name_length_guard "aVeryLongName!" "h:1").1 (by decide)
  · have h := (server_name_length_guard "srv1" "h:1").2
      srv1 rfl
    exact h.2.1

/-- C2: both snapshot counters start at 0 on construction; a delta call
stores the new cumulative value and returns new minus old; over any
non-decreasing input sequence starting from the initial 0 state, every
delta equals current minus previous and is non-negative. -/
theorem snapshot_counter_delta (s : Server) (v : Int) (vs : List Int)
    (opcounts : List (String × Int)) (name address : String) :
    (∀ s₀ : Server, Server.init name address = Except.ok s₀ →
      s₀.flushCount = 0 ∧ s₀.operationCount = 0) ∧
    Server.getFlushCountChange s v = (v - s.flushCount, { s with flushCount := v }) ∧
    Server.getOperationCountChange s opcounts =
      ((opcounts.map Prod.snd).sum - s.operationCount,
        { s with operationCount := (opcounts.map Prod.snd).sum }) ∧
    (s.flushCount = 0 → List.Chain' (· ≤ ·) (0 :: vs) →
      Server.runFlushDeltas s vs = vs.zipWith (fun cur prev => cur - prev) (0 :: vs) ∧
      ∀ d ∈ Server.runFlushDeltas s vs, 0 ≤ d) := by
  refine ⟨?_, rfl, rfl, ?_⟩
  · intro s₀ hs₀
    simp only [Server.init] at hs₀
    split_ifs at hs₀ with h
    · simp only [Except.ok.injEq] at hs₀
      subst hs₀
      exact ⟨rfl, rfl⟩
  · intro h0 hchain
    constructor
    · rw [runFlushDeltas_eq, h0]
    · exact runFlushDeltas_nonneg vs s (by rwa [h0])

/-- C2 witness: first call with cumulative value 50 returns 50, second
call with 70 returns 20. -/
theorem snapshot_counter_delta_witness :
    Server.runFlushDeltas srv1 [50, 70] = [50, 20] := by
  have h := ((snapshot_counter_delta
      srv1
      0 [50, 70] [] "srv1" "h:1").2.2.2 rfl
      (by norm_num [List.chain'_cons])).1
  exact h.trans (by decide)

/-- C6: an in-progress record of kind `"query"` with `secs_running`
present becomes a `Query` carrying that duration; kind `"query"` without
`secs_running` becomes a `Query` with an absent duration; any other kind
becomes a generic `Operation`; the operation listing yields exactly one
such record per in-progress document. -/
theorem operation_classification (s : Server) (doc : InProgDoc) (r : Int) :
    (doc.op = "query" → doc.secs_running = some r →
      classifyOp s doc = Operation.query s doc.opid doc.ns doc.query (some r)) ∧
    (doc.op = "query" → doc.secs_running = none →
      classifyOp s doc = Operation.query s doc.opid doc.ns doc.query none) ∧
    (doc.op ≠ "query" → classifyOp s doc = Operation.operation s doc.opid) ∧
    (∀ inprog : List InProgDoc, Server.currentOperations s inprog = inprog.map (classifyOp s)) := by
  refine ⟨?_, ?_, ?_, fun _ => rfl⟩
  · intro h1 h2
    simp [classifyOp, h1, h2]
  · intro h1 h2
    simp [classifyOp, h1, h2]
  · intro h1
    simp [classifyOp, h1]

/-- C6 witness: the three classification cases at concrete documents. -/
theorem operation_classification_witness :
    classifyOp srv1
        { op := "query", opid := 7, ns := "db.c", query := "qbody", secs_running := some 12 }
      = Operation.query srv1
          7 "db.c" "qbody" (some 12) ∧
    classifyOp srv1
        { op := "query", opid := 8, ns := "db.c", query := "qbody", secs_running := none }
      = Operation.query srv1
          8 "db.c" "qbody" none ∧
    classifyOp srv1
        { op := "insert", opid := 9, ns := "db.c", query := "qbody", secs_running := none }
      = Operation.operation srv1 9 := by
  refine ⟨(operation_classification _ _ 12).1 rfl rfl,
    (operation_classification _ _ 0).2.1 rfl rfl,
    (operation_classification _ _ 0).2.2.1 (by decide)⟩

/-- C8: in the source's main loop, a failing remote call for the first
server aborts the whole tick's operation listing; the second server's
in-progress operation is discarded rather than rendered. -/
theorem operation_listing_aborts_on_failure :
    collectOperations [Except.error "connection failure",
        Except.ok [Operation.operation srv2 5]]
      = Except.error "connection failure" := rfl

/-- C1 (amended): for a table whose configured maximum is positive,
`reset` leaves the generation equal to the first `maxRows` records of the
stably sorted input: at most `maxRows` records (exactly `min maxRows n`),
the generation is sorted in the table's direction, the sort permutes the
input, and every kept record's key is at least (descending) or at most
(ascending) every dropped record's key. -/
theorem ranked_table_truncation {α κ : Type} [LinearOrder κ] (sortOrder : α → κ)
    (headers : List String) (desc : Bool) (m : Nat) (records : List α) (hm : 0 < m) :
    ((ListPrinter.init headers desc (some m) : ListPrinter α).reset sortOrder records).printables
        = (pysorted sortOrder desc records).take m ∧
    ((ListPrinter.init headers desc (some m) : ListPrinter α).reset sortOrder
        records).printables.length = min m records.length ∧
    (pysorted sortOrder desc records).Perm records ∧
    List.Pairwise (fun a b => pyKeyLe sortOrder desc a b = true)
      ((ListPrinter.init headers desc (some m) : ListPrinter α).reset sortOrder
        records).printables ∧
    (∀ a ∈ ((ListPrinter.init headers desc (some m) : ListPrinter α).reset sortOrder
        records).printables,
      ∀ b ∈ (pysorted sortOrder desc records).drop m,
      (desc = true → sortOrder b ≤ sortOrder a) ∧ (desc = false → sortOrder a ≤ sortOrder b)) := by
  have hreset : ((ListPrinter.init headers desc (some m) : ListPrinter α).reset sortOrder
      records).printables = (pysorted sortOrder desc records).take m := by
    simp only [ListPrinter.reset, ListPrinter.init]
    rw [if_neg (by omega)]
  refine ⟨hreset, ?_, pysorted_perm sortOrder desc records, ?_, ?_⟩
  · rw [hreset, List.length_take, pysorted_length]
  · rw [hreset]
    exact List.Pairwise.sublist (List.take_sublist m _)
      (pysorted_pairwise sortOrder desc records)
  · rw [hreset]
    intro a ha b hb
    have hp := pysorted_pairwise sortOrder desc records
    rw [← List.take_append_drop m (pysorted sortOrder desc records)] at hp
    have h := (List.pairwise_append.mp hp).2.2 a ha b hb
    constructor
    · intro hd
      subst hd
      simpa [pyKeyLe] using h
    · intro hd
      subst hd
      simpa [pyKeyLe] using h

unseal List.merge List.mergeSort in
/-- C1 counterexample: a table configured with maximum row count 0 does
not truncate at all (Python's `if self.__maxLine:` treats 0 as falsy), so
its generation can exceed the configured maximum. -/
theorem ranked_table_truncation_zero_cap :
    (((ListPrinter.init ["Server"] true (some 0) : ListPrinter Operation).reset
        Operation.sortOrder
        [Operation.operation srv1 1]).printables).length = 1 ∧
    ¬ (((ListPrinter.init ["Server"] true (some 0) : ListPrinter Operation).reset
        Operation.sortOrder
        [Operation.operation srv1 1]).printables).length ≤ 0 := by
  constructor <;> decide

/-- C1 witness: with `maxRows = 30` and 45 submitted records, exactly 30
rows remain. -/
theorem ranked_table_truncation_witness :
    (((ListPrinter.init ["X"] true (some 30) : ListPrinter Nat).reset id
        (List.range 45)).printables).length = 30 := by
  have h := (ranked_table_truncation id ["X"] true 30 (List.range 45) (by norm_num)).2.1
  simpa using h

/-- C3: when the supplied cells form a prefix (positionwise, no longer
than any record's rendered cells), `getLine` returns the first record of
the current generation whose rendered cells agree with every supplied
position, and `none` (not an error) when no record matches. -/
theorem getLine_first_prefix_match {α : Type} (lp : ListPrinter α) (line : α → List String)
    (l : List String) (h : ∀ p ∈ lp.printables, l.length ≤ (line p).length) :
    lp.getLine line l = some (lp.printables.find? (fun p => l.isPrefixOf (line p))) :=
  getLineScan_eq line l lp.printables h

/-- C3 witness: with records rendering `["srv1", "101", ...]` and
`["srv2", "202", ...]`, the lookup `["srv1", "101"]` returns the first
record and `["srv3", "1"]` returns "not found". -/
theorem getLine_first_prefix_match_witness :
    ({ Query.listPrinter with printables :=
        [Operation.query srv1 101 "db.c" "qbody" (some 5),
         Operation.query srv2 202 "db.c" "qbody" (some 2)] }).getLine
      Operation.line ["srv1", "101"]
      = some (some (Operation.query srv1 101 "db.c" "qbody" (some 5))) ∧
    ({ Query.listPrinter with printables :=
        [Operation.query srv1 101 "db.c" "qbody" (some 5),
         Operation.query srv2 202 "db.c" "qbody" (some 2)] }).getLine
      Operation.line ["srv3", "1"] = some none := by
  constructor
  · have h := getLine_first_prefix_match
      { Query.listPrinter with printables :=
        [Operation.query srv1 101 "db.c" "qbody" (some 5),
         Operation.query srv2 202 "db.c" "qbody" (some 2)] }
      Operation.line ["srv1", "101"] (by decide)
    exact h.trans (by decide)
  · have h := getLine_first_prefix_match
      { Query.listPrinter with printables :=
        [Operation.query srv1 101 "db.c" "qbody" (some 5),
         Operation.query srv2 202 "db.c" "qbody" (some 2)] }
      Operation.line ["srv3", "1"] (by decide)
    exact h.trans (by decide)

/-- C5: each column width starts at its header length plus 2; one
`printLines` call never shrinks any width (so widths are monotonically
non-decreasing across the table's lifetime, each call starting from the
previous call's widths); and a cell wider than its column's current width
grows that width to the cell's length plus 2. -/
theorem column_widths_ratchet {α : Type} (headers : List String) (desc : Bool)
    (ml : Option Nat) (lp : ListPrinter α) (line : α → List String) :
    (ListPrinter.init headers desc ml : ListPrinter α).columnWidths
        = headers.map (fun h => h.length + 2) ∧
    (∀ i : Nat, lp.columnWidths.getD i 0 ≤ (lp.printLines line).columnWidths.getD i 0) ∧
    (∀ (ws : List Nat) (cells : List String) (j : Nat), j < ws.length →
      ws.getD j 0 < (cells.getD j "").length →
      (updateWidths ws cells).getD j 0 = (cells.getD j "").length + 2) := by
  refine ⟨rfl, ?_, updateWidths_grow⟩
  intro i
  exact foldl_updateWidths_getD_le line lp.printables lp.columnWidths i

/-- C5 witness: a width-4 column printed with a 10-character cell grows to
width 12. -/
theorem column_widths_ratchet_witness :
    (updateWidths [4] ["0123456789"]).getD 0 0 = 12 := by
  have h := (column_widths_ratchet ["Op"] false none Query.listPrinter Operation.line).2.2
    [4] ["0123456789"] 0 (by decide) (by decide)
  exact h.trans (by decide)

unseal List.merge List.mergeSort in
/-- C7 counterexample: `reset` accepts a generic operation rendering 2
cells into the 5-header operations table — no arity check happens, so a
held record's cell count can differ from the table's header count. -/
theorem reset_no_arity_check :
    (Query.listPrinter.reset Operation.sortOrder
        [Operation.operation srv1 3]).printables
      = [Operation.operation srv1 3] ∧
    (Operation.line (Operation.operation srv1 3)).length ≠
      Query.listPrinter.columnHeaders.length := by
  constructor <;> decide

unseal List.merge List.mergeSort in
/-- C7 (amended): `reset` checks only that each record is a `Printable`
instance, never its rendered arity: a mixed generation of a 2-cell generic
operation and a 5-cell query is accepted, sorted and kept in the 5-header
operations table. -/
theorem reset_instance_check_only :
    (Query.listPrinter.reset Operation.sortOrder
        [Operation.operation srv1 3,
         Operation.query srv2 9 "db.c" "qbody" (some 5)]).printables
      = [Operation.query srv2 9 "db.c" "qbody" (some 5),
         Operation.operation srv1 3] ∧
    (Operation.line (Operation.operation srv1 3)).length = 2 ∧
    (Operation.line (Operation.query srv2 9 "db.c" "qbody" (some 5))).length = 5 ∧
    Query.listPrinter.columnHeaders.length = 5 := by
  refine ⟨by decide, by decide, by decide, by decide⟩

/-- C10: a query's sort key is its stored duration when present and
truthy, and 0 otherwise; in the descending operations table, any record
with sort key 0 sits strictly after every record with a positive sort
key. -/
theorem query_sort_key (s : Server) (opid : Int) (ns body : String) (d : Int) :
    (Operation.query s opid ns body none).sortOrder = 0 ∧
    (Operation.query s opid ns body (some 0)).sortOrder = 0 ∧
    (d ≠ 0 → (Operation.query s opid ns body (some d)).sortOrder = d) ∧
    (∀ (records : List Operation) (a b : Operation) (i j : Nat),
      a.sortOrder = 0 → 0 < b.sortOrder →
      (pysorted Operation.sortOrder true records).get? i = some a →
      (pysorted Operation.sortOrder true records).get? j = some b →
      j < i) := by
  refine ⟨rfl, rfl, ?_, ?_⟩
  · intro hd
    simp [Operation.sortOrder, hd]
  · intro records a b i j ha hb hia hjb
    have hp := pysorted_pairwise Operation.sortOrder true records
    rw [List.pairwise_iff_get] at hp
    rw [List.get?_eq_some] at hia hjb
    obtain ⟨hilt, hia⟩ := hia
    obtain ⟨hjlt, hjb⟩ := hjb
    by_contra hij
    push_neg at hij
    rcases Nat.lt_or_ge i j with h | h
    · have hk := hp ⟨i, hilt⟩ ⟨j, hjlt⟩ (Fin.mk_lt_mk.mpr h)
      rw [hia, hjb] at hk
      simp only [pyKeyLe, if_true, decide_eq_true_eq] at hk
      omega
    · have hej : i = j := by omega
      subst hej
      have hab : a = b := by rw [← hia, ← hjb]
      rw [hab] at ha
      omega

unseal List.merge List.mergeSort in
/-- C10 witness: a query with duration 5 has sort key 5, and in the
descending sort of a zero-key query and that positive-key query the
positive one comes strictly first. -/
theorem query_sort_key_witness :
    (Operation.query srv1 7 "db.c" "qbody" (some 5)).sortOrder = 5 ∧ (0 : Nat) < 1 := by
  constructor
  · exact (query_sort_key srv1 7 "db.c" "qbody" 5).2.2.1 (by decide)
  · exact (query_sort_key srv1 7 "db.c" "qbody" 5).2.2.2
      [Operation.query srv1 1 "db.c" "qbody" none,
       Operation.query srv2 2 "db.c" "qbody" (some 5)]
      (Operation.query srv1 1 "db.c" "qbody" none)
      (Operation.query srv2 2 "db.c" "qbody" (some 5))
      1 0 (by decide) (by decide) (by decide) (by decide)

end Motop
